import Mathlib

/-!
Verification development for src/data_processor.py, the chapter
data-processing script of the xiaoshuo repository.

Modelling conventions. Python dicts are embedded as insertion-ordered
association lists (assignment replaces an existing key in place and
appends a new key at the tail, as CPython dicts do). Python floats are
embedded as rationals. Fallible dictionary and list accesses are
embedded in the Except monad, so that a raised KeyError or IndexError
is an error value that aborts the whole call, as a Python exception
aborts the function. Wall-clock timestamp fields (created_at,
updated_at) and the sqlite AUTOINCREMENT surrogate keys are omitted
from the model; no claim depends on them.
-/

set_option maxRecDepth 10000

namespace DataProcessor

/-- Values stored in an entity current-state dict: the source mixes
strings with the integer valued key last_chapter in the same dict. -/
inductive Value where
  | str : String → Value
  | num : Nat → Value
  deriving DecidableEq, Repr

/-- Read from an insertion-ordered association list (Python dict read). -/
def dget {κ α : Type} [DecidableEq κ] : List (κ × α) → κ → Option α
  | [], _ => none
  | (k', v) :: rest, k => if k' = k then some v else dget rest k

/-- Write to an insertion-ordered association list (Python dict
assignment): replace in place when the key exists, append otherwise. -/
def dset {κ α : Type} [DecidableEq κ] : List (κ × α) → κ → α → List (κ × α)
  | [], k, v => [(k, v)]
  | (k', v') :: rest, k, v =>
    if k' = k then (k, v) :: rest else (k', v') :: dset rest k v

/-- One entry of the candidates list of an uncertain mention. -/
structure Candidate where
  type : String
  id : String
  deriving DecidableEq, Repr

/-- An uncertain mention as produced by extract_entities. The source
accesses the confidence key through dict.get with default 0 and the
candidates key through direct subscription, so the two keys may be
absent; absence is modelled by none. -/
structure UncertainMention where
  mention : String
  context : String
  candidates : Option (List Candidate)
  confidence : Option ℚ
  deriving DecidableEq, Repr

/-- One adopted binding produced by disambiguate. -/
structure Adopted where
  mention : String
  adopted : String
  confidence : ℚ
  reason : String
  deriving DecidableEq, Repr

/-- A warning emitted by disambiguate. The source builds format
strings; the model keeps the interpolated values structurally:
midConfidence mention id confidence embeds the audit record string,
needsManualReview mention embeds the manual-review string. -/
inductive Warning where
  | midConfidence : String → String → ℚ → Warning
  | needsManualReview : String → Warning
  deriving DecidableEq, Repr

/-- Python exceptions that the embedded code can raise. -/
inductive DisambErr where
  | keyError : String → DisambErr
  | indexError : DisambErr
  deriving DecidableEq, Repr

/-- Decidable equality of Except results, used to evaluate the
embedded functions on concrete inputs. -/
instance {ε α : Type} [DecidableEq ε] [DecidableEq α] : DecidableEq (Except ε α) := fun x y =>
  match x, y with
  | Except.ok a, Except.ok b =>
    if h : a = b then isTrue (by rw [h]) else isFalse (by intro hh; cases hh; exact h rfl)
  | Except.ok _, Except.error _ => isFalse (by intro hh; cases hh)
  | Except.error _, Except.ok _ => isFalse (by intro hh; cases hh)
  | Except.error e, Except.error f =>
    if h : e = f then isTrue (by rw [h]) else isFalse (by intro hh; cases hh; exact h rfl)

/-- item.get with default 0 on the confidence key (line 160). -/
def getConfidence (item : UncertainMention) : ℚ :=
  item.confidence.getD 0

/-- Subscription item of the candidates key: raises KeyError when the
key is absent. -/
def getCandidates (item : UncertainMention) : Except DisambErr (List Candidate) :=
  match item.candidates with
  | some cs => Except.ok cs
  | none => Except.error (DisambErr.keyError "candidates")

/-- Subscription with index 0: raises IndexError on an empty list. -/
def headCandidate (cs : List Candidate) : Except DisambErr Candidate :=
  match cs with
  | c :: _ => Except.ok c
  | [] => Except.error DisambErr.indexError

/-- One iteration of the disambiguate loop body (lines 159 to 177). -/
def disambiguateStep (item : UncertainMention) : Except DisambErr (List Adopted × List Warning) :=
  let confidence := getConfidence item
  if confidence > 0.8 then
    match getCandidates item with
    | Except.error e => Except.error e
    | Except.ok cs =>
      match headCandidate cs with
      | Except.error e => Except.error e
      | Except.ok c =>
        Except.ok ([{ mention := item.mention, adopted := c.id,
                      confidence := confidence, reason := "高置信度直接采用" }], [])
  else if confidence > 0.5 then
    match getCandidates item with
    | Except.error e => Except.error e
    | Except.ok cs =>
      match headCandidate cs with
      | Except.error e => Except.error e
      | Except.ok c =>
        Except.ok ([{ mention := item.mention, adopted := c.id,
                      confidence := confidence, reason := "中置信度采用但记录警告" }],
                   [Warning.midConfidence item.mention c.id confidence])
  else
    Except.ok ([], [Warning.needsManualReview item.mention])

/-- disambiguate (lines 154 to 179): fold of the loop body over the
uncertain list, accumulating adopted entries and warnings in order; a
raised exception aborts the whole call. -/
def disambiguate : List UncertainMention → Except DisambErr (List Adopted × List Warning)
  | [] => Except.ok ([], [])
  | item :: rest =>
    match disambiguateStep item with
    | Except.error e => Except.error e
    | Except.ok pair =>
      match disambiguate rest with
      | Except.error e => Except.error e
      | Except.ok pairs => Except.ok (pair.1 ++ pairs.1, pair.2 ++ pairs.2)

/-- One appeared-entity record proposed by extract_entities. -/
structure AppearedEntity where
  id : String
  type : String
  mentions : List String
  confidence : ℚ
  deriving DecidableEq, Repr

/-- One new-entity proposal. update_state reads the tier and desc keys
through dict.get with defaults, so they are optional in the model. -/
structure NewEntity where
  suggested_id : String
  name : String
  type : String
  tier : Option String
  desc : Option String
  deriving DecidableEq, Repr

/-- One state-change proposal. update_state reads the reason key
through dict.get with default and never reads the old key. -/
structure StateChange where
  entity_id : String
  field : String
  old : Option String
  new : String
  reason : Option String
  deriving DecidableEq, Repr

/-- One relationship proposal. The Python dict keys from and to are
renamed fromId and toId because from is reserved in Lean. -/
structure RelProposal where
  fromId : String
  toId : String
  type : String
  description : String
  deriving DecidableEq, Repr

/-- A history record (chapter, field, old, new, reason). The old value
is read out of the current dict, so it carries a Value. -/
structure HistoryRecord where
  chapter : Nat
  field : String
  old : Value
  new : String
  reason : String
  deriving DecidableEq, Repr

/-- An entity record of the entities_v3 store. -/
structure Entity where
  id : String
  canonical_name : String
  aliases : List String
  tier : String
  desc : String
  current : List (String × Value)
  history : List HistoryRecord
  created_chapter : Nat
  first_appearance : String
  deriving DecidableEq, Repr

/-- One alias-index entry: a (type, id) reference. -/
structure AliasRef where
  type : String
  id : String
  deriving DecidableEq, Repr

/-- entities_v3: dict from entity type to a dict from id to entity. -/
abbrev Buckets := List (String × List (String × Entity))

/-- alias_index: dict from surface form to a list of references. -/
abbrev AliasIndex := List (String × List AliasRef)

/-- A persisted relationship edge. The created_at timestamp is
omitted from the model. -/
structure Relationship where
  fromId : String
  toId : String
  type : String
  description : String
  chapter : Nat
  deriving DecidableEq, Repr

/-- The state.json document. The updated_at metadata timestamp is
omitted from the model. -/
structure StoreState where
  entities_v3 : Buckets
  alias_index : AliasIndex
  relationships : List Relationship
  current_chapter : Nat
  deriving DecidableEq, Repr

/-- The five-component result of extract_entities, with the fields
named after the Python locals. -/
structure ExtractResult where
  entities_appeared : List AppearedEntity
  entities_new : List NewEntity
  state_changes : List StateChange
  relationships_new : List RelProposal
  uncertain : List UncertainMention
  deriving DecidableEq, Repr

/-- Boolean list-prefix test, used to express the Python substring
operator on character lists. -/
def isPrefixOfB : List Char → List Char → Bool
  | [], _ => true
  | _ :: _, [] => false
  | a :: pa, b :: pb => a == b && isPrefixOfB pa pb

/-- The Python substring containment operator (pat in text), on
character lists: some suffix of the text starts with the pattern. -/
def occursIn (pat : List Char) : List Char → Bool
  | [] => isPrefixOfB pat []
  | b :: rest => isPrefixOfB pat (b :: rest) || occursIn pat rest

/-- The叶凡 appeared-entity literal of extract_entities (lines 60 to 65). -/
def yefanAppeared : AppearedEntity :=
  { id := "yefan", type := "角色", mentions := ["叶凡", "他"], confidence := 0.95 }

/-- The顾晚晴 appeared-entity literal (lines 70 to 75). -/
def guwanqingAppeared : AppearedEntity :=
  { id := "guwanqing", type := "角色", mentions := ["顾晚晴", "她", "顾女士"], confidence := 0.95 }

/-- The middle_woman new-entity literal (lines 80 to 86). -/
def middleWomanNE : NewEntity :=
  { suggested_id := "middle_woman", name := "中年妇女", type := "角色",
    tier := some "装饰", desc := some "街边举牌招租的中年妇女，态度敷衍" }

/-- The jingya_community new-entity literal (lines 90 to 96). -/
def jingyaNE : NewEntity :=
  { suggested_id := "jingya_community", name := "静雅小区", type := "地点",
    tier := some "重要", desc := some "老小区，干净整洁，有3号楼602室" }

/-- The 602_room new-entity literal (lines 100 to 106). -/
def room602NE : NewEntity :=
  { suggested_id := "602_room", name := "602室", type := "地点",
    tier := some "重要", desc := some "顾晚晴的出租房次卧" }

/-- The yefan location state-change literal (lines 110 to 116). -/
def yefanLocCh : StateChange :=
  { entity_id := "yefan", field := "location", old := some "无处可去",
    new := "静雅小区3号楼602室", reason := some "租房成功" }

/-- The yefan status state-change literal (lines 117 to 123). -/
def yefanStatusCh : StateChange :=
  { entity_id := "yefan", field := "status", old := some "找工作",
    new := "租房中", reason := some "成为租客" }

/-- The guwanqing location state-change literal (lines 127 to 133). -/
def guwanqingLocCh : StateChange :=
  { entity_id := "guwanqing", field := "location", old := some "顾晚晴的房产",
    new := "静雅小区3号楼602室(房产)", reason := some "房子出租给叶凡" }

/-- The unconditional relationship literal (lines 136 to 141). -/
def landlordRel : RelProposal :=
  { fromId := "yefan", toId := "guwanqing", type := "房东-租客",
    description := "叶凡租住顾晚晴的房子" }

/-- The unconditional uncertain-mention literal (lines 144 to 149). -/
def mrUncertain : UncertainMention :=
  { mention := "那位先生", context := "中年妇女对叶凡的称呼",
    candidates := some [{ type := "角色", id := "yefan" }], confidence := some 0.85 }

/-- extract_entities (lines 40 to 151): a fixed sequence of literal
substring checks against the chapter content. The existing_entities and
alias_to_entities parameters are bound but unused in the source body
(the locals known_roles, known_locations and appeared_ids are never
read), and the relationship and the uncertain mention are appended
unconditionally, outside every check. -/
def extract_entities (chapter_content : List Char) (existing_entities : Buckets)
    (alias_to_entities : AliasIndex) : ExtractResult :=
  let entities_appeared :=
    (if occursIn "叶凡".toList chapter_content then [yefanAppeared] else []) ++
    (if occursIn "顾晚晴".toList chapter_content then [guwanqingAppeared] else [])
  let entities_new :=
    (if occursIn "中年妇女".toList chapter_content &&
        occursIn "房东直租".toList chapter_content then [middleWomanNE] else []) ++
    (if occursIn "静雅小区".toList chapter_content then [jingyaNE] else []) ++
    (if occursIn "602室".toList chapter_content ||
        occursIn "3号楼".toList chapter_content then [room602NE] else [])
  let state_changes :=
    (if occursIn "租房".toList chapter_content &&
        occursIn "加微信".toList chapter_content then [yefanLocCh, yefanStatusCh] else []) ++
    (if occursIn "租出去".toList chapter_content ||
        occursIn "还房贷".toList chapter_content then [guwanqingLocCh] else [])
  let relationships_new := [landlordRel]
  let uncertain := [mrUncertain]
  { entities_appeared := entities_appeared, entities_new := entities_new,
    state_changes := state_changes, relationships_new := relationships_new,
    uncertain := uncertain }

/-- The fresh entity record built for a new-entity proposal by
update_state (lines 196 to 211). -/
def freshEntity (new_entity : NewEntity) : Entity :=
  { id := new_entity.suggested_id
    canonical_name := new_entity.name
    aliases := []
    tier := new_entity.tier.getD "普通"
    desc := new_entity.desc.getD ""
    current := [("realm", Value.str "普通人"), ("location", Value.str ""),
                ("status", Value.str ""), ("last_chapter", Value.num 1)]
    history := []
    created_chapter := 1
    first_appearance := "正文/第0001章.md" }

/-- One iteration of the new-entity registration loop of update_state
(lines 188 to 216): unconditional assignment into the type bucket
(overwriting any existing record under the same id) followed by an
append to the alias index under the canonical name. -/
def registerNewEntity (acc : Buckets × AliasIndex) (new_entity : NewEntity) :
    Buckets × AliasIndex :=
  let bucket := (dget acc.1 new_entity.type).getD []
  let ev3 := dset acc.1 new_entity.type
    (dset bucket new_entity.suggested_id (freshEntity new_entity))
  let refs := (dget acc.2 new_entity.name).getD []
  let ai := dset acc.2 new_entity.name
    (refs ++ [{ type := new_entity.type, id := new_entity.suggested_id }])
  (ev3, ai)

/-- The in-place update of one found entity for one state change
(lines 228 to 240): set the named field, set last_chapter, append one
history record whose old value is the previous current value of the
field (empty-string default). -/
def updateEntity (entity : Entity) (change : StateChange) : Entity :=
  let old_value := (dget entity.current change.field).getD (Value.str "")
  let cur := dset (dset entity.current change.field (Value.str change.new))
    "last_chapter" (Value.num 1)
  { entity with
    current := cur
    history := entity.history ++
      [{ chapter := 1, field := change.field, old := old_value,
         new := change.new, reason := change.reason.getD "" }] }

/-- One iteration of the state-change loop of update_state (lines 219
to 242): scan the type buckets in insertion order, update the first
bucket that contains the id and stop there; when no bucket contains the
id the loop falls through silently and the store is unchanged. -/
def applyChange : Buckets → StateChange → Buckets
  | [], _ => []
  | (t, bucket) :: rest, change =>
    match dget bucket change.entity_id with
    | some entity => (t, dset bucket change.entity_id (updateEntity entity change)) :: rest
    | none => (t, bucket) :: applyChange rest change

/-- Lookup of an entity by id across the type buckets in insertion
order, mirroring the scan of the state-change loop. -/
def findEntity : Buckets → String → Option Entity
  | [], _ => none
  | (_, bucket) :: rest, entity_id =>
    match dget bucket entity_id with
    | some entity => some entity
    | none => findEntity rest entity_id

/-- update_state (lines 182 to 268): register new entities, apply
state changes, append relationship edges, set the metadata chapter.
The entities_appeared parameter is bound but never used in the source
body. The file write at the end is I/O and outside the model; the
function returns the updated state as the source does. -/
def update_state (state : StoreState) (entities_appeared : List AppearedEntity)
    (entities_new : List NewEntity) (state_changes : List StateChange)
    (relationships_new : List RelProposal) : StoreState :=
  let p := entities_new.foldl registerNewEntity (state.entities_v3, state.alias_index)
  let ev3 := state_changes.foldl applyChange p.1
  let rels := state.relationships ++ relationships_new.map
    (fun r => { fromId := r.fromId, toId := r.toId, type := r.type,
                description := r.description, chapter := 1 })
  { entities_v3 := ev3, alias_index := p.2, relationships := rels, current_chapter := 1 }

/-- One scene dict as built by chunk_scenes. -/
structure SceneData where
  index : Nat
  start_line : Nat
  end_line : Nat
  location : String
  summary : String
  characters : List String
  deriving DecidableEq, Repr

/-- One row of the chapters table, keyed by the chapter number. The
characters and scenes columns hold JSON dumps; the model keeps the
dumped values structurally. The created_at column is omitted. -/
structure ChapterRow where
  chapter : Nat
  title : String
  location : String
  word_count : Nat
  characters : List String
  scenes : List SceneData
  deriving DecidableEq, Repr

/-- One row of the entity_appearances table. The AUTOINCREMENT
surrogate key is omitted. -/
structure AppearanceRow where
  chapter : Nat
  entity_id : String
  entity_type : String
  mentions : List String
  confidence : ℚ
  deriving DecidableEq, Repr

/-- One row of the scenes table. The AUTOINCREMENT surrogate key is
omitted. -/
structure SceneRow where
  chapter : Nat
  scene_index : Nat
  location : String
  summary : String
  characters : List String
  start_line : Nat
  end_line : Nat
  deriving DecidableEq, Repr

/-- The index.db relational store after create_index_db: the chapters
table keyed by primary key, and the two child tables as row lists. -/
structure IndexDB where
  chapters : List (Nat × ChapterRow)
  entity_appearances : List AppearanceRow
  scenes : List SceneRow
  deriving DecidableEq, Repr

/-- insert_chapter_data (lines 319 to 348): INSERT OR REPLACE of the
chapter row by primary key, then plain INSERT of one entity_appearances
row per appeared entity and one scenes row per scene. -/
def insert_chapter_data (db : IndexDB) (chapter : Nat) (title location : String)
    (word_count : Nat) (entities_appeared : List AppearedEntity)
    (scenes : List SceneData) : IndexDB :=
  { chapters := dset db.chapters chapter
      { chapter := chapter, title := title, location := location,
        word_count := word_count,
        characters := entities_appeared.map (fun e => e.id), scenes := scenes }
    entity_appearances := db.entity_appearances ++ entities_appeared.map
      (fun e => { chapter := chapter, entity_id := e.id, entity_type := e.type,
                  mentions := e.mentions, confidence := e.confidence })
    scenes := db.scenes ++ scenes.map
      (fun s => { chapter := chapter, scene_index := s.index, location := s.location,
                  summary := s.summary, characters := s.characters,
                  start_line := s.start_line, end_line := s.end_line }) }

/-- chunk_scenes (lines 351 to 398): four fixed scene dicts, returned
regardless of the chapter content. -/
def chunk_scenes (chapter_content : List Char) : List SceneData :=
  [{ index := 1, start_line := 1, end_line := 50, location := "街头/写字楼",
     summary := "叶凡面试失败，漫无目的地走在街头，回忆家族破产的落魄处境。",
     characters := ["yefan"] },
   { index := 2, start_line := 51, end_line := 110, location := "街边",
     summary := "叶凡遇到举牌的中年妇女租房，被嫌弃价格高后离开。",
     characters := ["yefan", "middle_woman"] },
   { index := 3, start_line := 111, end_line := 280, location := "静雅小区3号楼602室",
     summary := "叶凡联系顾晚晴看房，两人因规矩和房租问题产生摩擦，最终签约成功。叶凡调侃顾晚晴的手机壳。",
     characters := ["yefan", "guwanqing"] },
   { index := 4, start_line := 281, end_line := 328, location := "静雅小区门口/街头",
     summary := "叶凡离开小区，望着只剩六百块的账户，感慨万千。",
     characters := ["yefan"] }]

/-- Classification of one uncertain mention written after the words of
the spec resolve policy (three tiers by confidence, adopting the top
candidate in the two upper tiers), the comparison side of the
refinement claims about disambiguate. -/
def resolveSpec (item : UncertainMention) : Option Adopted × List Warning :=
  let c := getConfidence item
  let top := (item.candidates.getD []).headD { type := "", id := "" }
  if c > 0.8 then
    (some { mention := item.mention, adopted := top.id, confidence := c,
            reason := "高置信度直接采用" }, [])
  else if c > 0.5 then
    (some { mention := item.mention, adopted := top.id, confidence := c,
            reason := "中置信度采用但记录警告" },
     [Warning.midConfidence item.mention top.id c])
  else
    (none, [Warning.needsManualReview item.mention])

/-- The spec resolve policy folded over a mention list, accumulating
adopted entries and warnings in order. -/
def resolveAll : List UncertainMention → List Adopted × List Warning
  | [] => ([], [])
  | m :: rest =>
    let p := resolveAll rest
    ((resolveSpec m).1.toList ++ p.1, (resolveSpec m).2 ++ p.2)

/-- Chapter text containing the six phrases of the spec scenario plus
the extra trigger phrases 中年妇女 and 房东直租. -/
def fullTriggerText : List Char :=
  "叶凡顾晚晴静雅小区602室租房加微信中年妇女房东直租".toList

/-- Chapter text containing exactly the six phrases of the spec
scenario and none of the other extraction trigger phrases. -/
def sixPhraseText : List Char := "叶凡顾晚晴静雅小区602室租房加微信".toList

/-- A high-confidence uncertain mention with one candidate. -/
def hiMention : UncertainMention :=
  { mention := "甲", context := "", candidates := some [{ type := "角色", id := "yefan" }],
    confidence := some 0.95 }

/-- A mid-confidence uncertain mention with one candidate. -/
def midMention : UncertainMention :=
  { mention := "乙", context := "", candidates := some [{ type := "角色", id := "guwanqing" }],
    confidence := some 0.6 }

/-- A low-confidence uncertain mention with one candidate. -/
def lowMention : UncertainMention :=
  { mention := "丙", context := "", candidates := some [{ type := "角色", id := "yefan" }],
    confidence := some 0.3 }

/-- An uncertain mention whose confidence is exactly 0.8. -/
def boundaryMention : UncertainMention :=
  { mention := "那位先生", context := "中年妇女对叶凡的称呼",
    candidates := some [{ type := "角色", id := "yefan" }], confidence := some 0.8 }

/-- A pre-existing yefan entity record with one history record. -/
def yefanSeed : Entity :=
  { id := "yefan", canonical_name := "叶凡", aliases := ["叶大少"], tier := "主角",
    desc := "男主角",
    current := [("realm", Value.str "普通人"), ("location", Value.str "街头"),
                ("status", Value.str "找工作"), ("last_chapter", Value.num 1)],
    history := [{ chapter := 1, field := "status", old := Value.str "入学",
                  new := "找工作", reason := "毕业" }],
    created_chapter := 1, first_appearance := "正文/第0001章.md" }

/-- A new-entity proposal reusing the already registered id yefan. -/
def duplicateYefanNE : NewEntity :=
  { suggested_id := "yefan", name := "叶凡", type := "角色",
    tier := some "装饰", desc := some "重复登记" }

/-- A store holding the seeded yefan entity. -/
def seedState : StoreState :=
  { entities_v3 := [("角色", [("yefan", yefanSeed)])],
    alias_index := [("叶凡", [{ type := "角色", id := "yefan" }])],
    relationships := [], current_chapter := 1 }

/-- First seeded history record of the 602_room entity. -/
def room602H1 : HistoryRecord :=
  { chapter := 1, field := "status", old := Value.str "", new := "空置", reason := "登记" }

/-- Second seeded history record of the 602_room entity. -/
def room602H2 : HistoryRecord :=
  { chapter := 1, field := "status", old := Value.str "空置", new := "待出租", reason := "挂牌" }

/-- A pre-existing 602_room entity record with two history records. -/
def roomSeed : Entity :=
  { id := "602_room", canonical_name := "602室", aliases := [], tier := "重要",
    desc := "顾晚晴的出租房次卧",
    current := [("realm", Value.str "普通人"), ("location", Value.str ""),
                ("status", Value.str "待出租"), ("last_chapter", Value.num 1)],
    history := [room602H1, room602H2],
    created_chapter := 1, first_appearance := "正文/第0001章.md" }

/-- A store holding the seeded 602_room entity. -/
def roomState : StoreState :=
  { entities_v3 := [("地点", [("602_room", roomSeed)])],
    alias_index := [("602室", [{ type := "地点", id := "602_room" }])],
    relationships := [], current_chapter := 1 }

/-- A state change referencing an id registered in no bucket. -/
def ghostChange : StateChange :=
  { entity_id := "ghost", field := "status", old := none, new := "逃跑", reason := some "无此实体" }

/-- The extraction output of the full-trigger chapter text. -/
def chapterOneExtract : ExtractResult := extract_entities fullTriggerText [] []

/-- A blank yefan entity present before the chapter is processed. -/
def yefanPre : Entity :=
  { id := "yefan", canonical_name := "叶凡", aliases := [], tier := "主角", desc := "",
    current := [("realm", Value.str "普通人"), ("location", Value.str ""),
                ("status", Value.str ""), ("last_chapter", Value.num 1)],
    history := [], created_chapter := 1, first_appearance := "正文/第0001章.md" }

/-- A blank guwanqing entity present before the chapter is processed. -/
def guwanqingPre : Entity :=
  { id := "guwanqing", canonical_name := "顾晚晴", aliases := [], tier := "主角", desc := "",
    current := [("realm", Value.str "普通人"), ("location", Value.str ""),
                ("status", Value.str ""), ("last_chapter", Value.num 1)],
    history := [], created_chapter := 1, first_appearance := "正文/第0001章.md" }

/-- The store before the chapter run: the two principal characters are
already registered, nothing else. -/
def preState : StoreState :=
  { entities_v3 := [("角色", [("yefan", yefanPre), ("guwanqing", guwanqingPre)])],
    alias_index := [], relationships := [], current_chapter := 1 }

/-- The store after processing the chapter once. -/
def runOnceState : StoreState :=
  update_state preState chapterOneExtract.entities_appeared chapterOneExtract.entities_new
    chapterOneExtract.state_changes chapterOneExtract.relationships_new

/-- The store after processing the same chapter a second time with the
identical extraction output. -/
def runTwiceState : StoreState :=
  update_state runOnceState chapterOneExtract.entities_appeared chapterOneExtract.entities_new
    chapterOneExtract.state_changes chapterOneExtract.relationships_new

/-- The relational index after inserting the chapter data once into an
empty schema. -/
def runOnceDB : IndexDB :=
  insert_chapter_data { chapters := [], entity_appearances := [], scenes := [] }
    1 "租房" "静雅小区" 4500 chapterOneExtract.entities_appeared (chunk_scenes fullTriggerText)

/-- The relational index after inserting the same chapter data a
second time. -/
def runTwiceDB : IndexDB :=
  insert_chapter_data runOnceDB
    1 "租房" "静雅小区" 4500 chapterOneExtract.entities_appeared (chunk_scenes fullTriggerText)

/-- Helper: on a mention whose candidates key holds a non-empty list,
one loop iteration of disambiguate agrees with the spec policy
classification. -/
theorem disambiguateStep_eq_resolveSpec (m : UncertainMention) (c : Candidate)
    (cs : List Candidate) (h : m.candidates = some (c :: cs)) :
    disambiguateStep m = Except.ok ((resolveSpec m).1.toList, (resolveSpec m).2) := by
  unfold disambiguateStep resolveSpec getCandidates headCandidate
  rw [h]
  by_cases h1 : getConfidence m > 0.8
  · simp [h1]
  · by_cases h2 : getConfidence m > 0.5 <;> simp [h1, h2]

/-- Claim C1: on a list of uncertain mentions whose candidate lists
are all present and non-empty, disambiguate succeeds and classifies
every mention solely by its confidence according to the three-tier
policy written in resolveSpec (above 0.8: adopt the top candidate with
no warning; above 0.5 and up to 0.8: adopt the top candidate with one
audit warning; at or below 0.5: adopt nothing and emit one
needs-manual-review warning), with the adopted entries and warnings
accumulated in input order. Determinism is immediate: disambiguate is
a pure function of its input, equal to the policy fold resolveAll. -/
theorem C1_resolve_policy (u : List UncertainMention)
    (h : ∀ m ∈ u, ∃ c cs, m.candidates = some (c :: cs)) :
    disambiguate u = Except.ok (resolveAll u) := by
  induction u with
  | nil => rfl
  | cons m rest ih =>
    obtain ⟨c, cs, hm⟩ := h m (List.mem_cons_self m rest)
    have hstep := disambiguateStep_eq_resolveSpec m c cs hm
    have hrest := ih (fun x hx => h x (List.mem_cons_of_mem m hx))
    simp [disambiguate, hstep, hrest, resolveAll]

/-- Witness for C1 at a concrete three-tier input. -/
theorem C1_resolve_policy_witness :
    disambiguate [hiMention, midMention, lowMention] =
      Except.ok ([{ mention := "甲", adopted := "yefan", confidence := 0.95,
                    reason := "高置信度直接采用" },
                  { mention := "乙", adopted := "guwanqing", confidence := 0.6,
                    reason := "中置信度采用但记录警告" }],
                 [Warning.midConfidence "乙" "guwanqing" 0.6,
                  Warning.needsManualReview "丙"]) := by
  refine (C1_resolve_policy [hiMention, midMention, lowMention] ?_).trans ?_
  · intro m hm
    fin_cases hm <;> exact ⟨_, _, rfl⟩
  · norm_num [resolveAll, resolveSpec, getConfidence, hiMention, midMention, lowMention]

/-- Claim C2 counterexample: on a mention whose confidence is exactly
0.8 with a non-empty candidate list, disambiguate adopts the top
candidate but emits one mid-confidence warning, so the adopted result
does not come with an empty warning list as the claim states. -/
theorem C2_boundary_counterexample :
    disambiguate [boundaryMention] =
      Except.ok ([{ mention := "那位先生", adopted := "yefan", confidence := 0.8,
                    reason := "中置信度采用但记录警告" }],
                 [Warning.midConfidence "那位先生" "yefan" 0.8]) ∧
    ([Warning.midConfidence "那位先生" "yefan" 0.8] : List Warning) ≠ [] :=
  ⟨by norm_num [disambiguate, disambiguateStep, getConfidence, getCandidates,
     headCandidate, boundaryMention], by decide⟩

/-- Claim C2 (amended): a mention with confidence exactly 0.8 and a
non-empty candidate list falls in the middle tier, since the upper
comparison is strict: disambiguate adopts the top candidate and emits
exactly one mid-confidence audit warning. -/
theorem C2_boundary_amended (m : UncertainMention) (c : Candidate) (cs : List Candidate)
    (hconf : m.confidence = some 0.8) (hcand : m.candidates = some (c :: cs)) :
    disambiguate [m] = Except.ok
      ([{ mention := m.mention, adopted := c.id, confidence := 0.8,
          reason := "中置信度采用但记录警告" }],
       [Warning.midConfidence m.mention c.id 0.8]) := by
  have hc : getConfidence m = 0.8 := by simp [getConfidence, hconf]
  unfold disambiguate disambiguateStep getCandidates headCandidate
  rw [hcand, hc]
  have h1 : ¬ ((0.8 : ℚ) > 0.8) := by norm_num
  have h2 : (0.8 : ℚ) > 0.5 := by norm_num
  simp [h1, h2, disambiguate]

/-- Witness for the amended C2 at the concrete boundary mention. -/
theorem C2_boundary_amended_witness :
    boundaryMention.confidence = some 0.8 ∧
    disambiguate [boundaryMention] = Except.ok
      ([{ mention := "那位先生", adopted := "yefan", confidence := 0.8,
          reason := "中置信度采用但记录警告" }],
       [Warning.midConfidence "那位先生" "yefan" 0.8]) :=
  ⟨rfl, C2_boundary_amended boundaryMention { type := "角色", id := "yefan" } [] rfl rfl⟩

/-- Claim C3 (code bug): on an uncertain mention with an empty
candidate list the source has no NoCandidateError path at all. Above
the 0.5 threshold the unguarded index-zero access raises IndexError,
and at or below 0.5 the call silently succeeds with a manual-review
warning, both contradicting the claimed NoCandidateError failure. -/
theorem C3_empty_candidates_index_error :
    disambiguate [{ mention := "那位先生", context := "", candidates := some [],
                    confidence := some 0.9 }] = Except.error DisambErr.indexError ∧
    disambiguate [{ mention := "那位先生", context := "", candidates := some [],
                    confidence := some 0.3 }] =
      Except.ok ([], [Warning.needsManualReview "那位先生"]) :=
  ⟨by norm_num [disambiguate, disambiguateStep, getConfidence, getCandidates, headCandidate],
   by norm_num [disambiguate, disambiguateStep, getConfidence, getCandidates, headCandidate]⟩

/-- Claim C10: a mention without the confidence key is read as
confidence 0 by dict.get, falls in the lowest tier, adopts nothing and
emits exactly one needs-manual-review warning; the candidate list is
never touched, so the step succeeds for every candidates value,
including an absent or empty list. -/
theorem C10_missing_confidence_manual_review (m : UncertainMention)
    (h : m.confidence = none) :
    disambiguateStep m = Except.ok ([], [Warning.needsManualReview m.mention]) := by
  have hc : getConfidence m = 0 := by simp [getConfidence, h]
  unfold disambiguateStep
  rw [hc]
  have h1 : ¬ ((0 : ℚ) > 0.8) := by norm_num
  have h2 : ¬ ((0 : ℚ) > 0.5) := by norm_num
  simp [h1, h2]

/-- Witness for C10 at a mention lacking both optional keys. -/
theorem C10_missing_confidence_witness :
    disambiguateStep { mention := "某人", context := "", candidates := none,
                       confidence := none } =
      Except.ok ([], [Warning.needsManualReview "某人"]) :=
  C10_missing_confidence_manual_review _ rfl

/-- Claim C4 (code bug): registering a new entity under an id that
already exists in its type bucket is not rejected; the assignment
overwrites the existing record with a fresh one, so the entity bound
to the id is not immutable across merges. Evaluated at the failing
input: the store seeds yefan with a non-empty history, a merge
re-registers the id yefan, and afterwards the bucket holds the fresh
record (empty history, reset fields) instead of the seeded one. -/
theorem C4_duplicate_registration_overwrites :
    findEntity seedState.entities_v3 "yefan" = some yefanSeed ∧
    findEntity (update_state seedState [] [duplicateYefanNE] [] []).entities_v3 "yefan"
      = some (freshEntity duplicateYefanNE) ∧
    freshEntity duplicateYefanNE ≠ yefanSeed ∧
    yefanSeed.history ≠ [] ∧ (freshEntity duplicateYefanNE).history = [] := by
  decide

/-- Claim C5 (code bug): history is not monotone under every
operation. Re-registering an existing id replaces the whole entity
record, so the two seeded history records of 602_room are removed by a
merge whose new-entity list reuses that id. -/
theorem C5_history_erased_by_reregistration :
    (findEntity roomState.entities_v3 "602_room").map (fun e => e.history)
      = some [room602H1, room602H2] ∧
    (findEntity (update_state roomState [] [room602NE] [] []).entities_v3
        "602_room").map (fun e => e.history) = some [] := by
  decide

/-- Claim C6 (code bug): a state change referencing an id that exists
in no bucket is dropped silently. update_state returns normally with
the store unchanged (the source has no EntityNotFoundError and its
found flag is never read), so the miss is not surfaced. -/
theorem C6_unknown_entity_change_silently_skipped :
    update_state seedState [] [] [ghostChange] [] = seedState := by
  decide

/-- Claim C7 counterexample: on empty chapter text the extraction does
not return empty proposal sets: the relationship and the uncertain
mention are appended unconditionally, outside every substring check. -/
theorem C7_empty_text_counterexample :
    (extract_entities [] [] []).relationships_new ≠ [] ∧
    (extract_entities [] [] []).uncertain ≠ [] := by
  decide

/-- Claim C7 (amended): on empty chapter text the extraction returns
without failing, with no appeared entities, no new entities and no
state changes; but it still returns the one hardcoded relationship and
the one hardcoded uncertain mention, which are emitted
unconditionally. -/
theorem C7_empty_text_amended (existing_entities : Buckets)
    (alias_to_entities : AliasIndex) :
    extract_entities [] existing_entities alias_to_entities =
      { entities_appeared := [], entities_new := [], state_changes := [],
        relationships_new := [landlordRel], uncertain := [mrUncertain] } := rfl

/-- Witness for the amended C7 at concrete empty store arguments. -/
theorem C7_empty_text_amended_witness :
    extract_entities [] [] [] =
      { entities_appeared := [], entities_new := [], state_changes := [],
        relationships_new := [landlordRel], uncertain := [mrUncertain] } :=
  C7_empty_text_amended [] []

/-- Claim C8 counterexample: a chapter text that contains the six
scenario phrases and additionally the trigger phrases 中年妇女 and
房东直租 yields three new entities, not two, so the count conclusion
fails for this text even though it satisfies the premise. -/
theorem C8_scenario_counterexample :
    occursIn "叶凡".toList fullTriggerText = true ∧
    occursIn "顾晚晴".toList fullTriggerText = true ∧
    occursIn "静雅小区".toList fullTriggerText = true ∧
    occursIn "602室".toList fullTriggerText = true ∧
    occursIn "租房".toList fullTriggerText = true ∧
    occursIn "加微信".toList fullTriggerText = true ∧
    (extract_entities fullTriggerText [] []).entities_new.length = 3 :=
  ⟨rfl, rfl, rfl, rfl, rfl, rfl, rfl⟩

/-- Claim C8 (amended): for every chapter text that contains the six
scenario phrases and does not fire the remaining extraction triggers
(中年妇女 together with 房东直租, nor 租出去, nor 还房贷), the
extraction yields exactly the two appeared entities yefan and
guwanqing, exactly two new entities, exactly two state changes both
targeting yefan, and exactly the one relationship edge from yefan to
guwanqing of type 房东-租客. -/
theorem C8_scenario_amended (text : List Char) (existing_entities : Buckets)
    (alias_to_entities : AliasIndex)
    (h1 : occursIn "叶凡".toList text = true)
    (h2 : occursIn "顾晚晴".toList text = true)
    (h3 : occursIn "静雅小区".toList text = true)
    (h4 : occursIn "602室".toList text = true)
    (h5 : occursIn "租房".toList text = true)
    (h6 : occursIn "加微信".toList text = true)
    (h7 : (occursIn "中年妇女".toList text && occursIn "房东直租".toList text) = false)
    (h8 : occursIn "租出去".toList text = false)
    (h9 : occursIn "还房贷".toList text = false) :
    (extract_entities text existing_entities alias_to_entities).entities_appeared.map
        (fun e => e.id) = ["yefan", "guwanqing"] ∧
    (extract_entities text existing_entities alias_to_entities).entities_new
      = [jingyaNE, room602NE] ∧
    (extract_entities text existing_entities alias_to_entities).state_changes.map
        (fun c => c.entity_id) = ["yefan", "yefan"] ∧
    (extract_entities text existing_entities alias_to_entities).relationships_new
      = [landlordRel] := by
  simp only [extract_entities]
  rw [h1, h2, h3, h4, h5, h6, h7, h8, h9]
  simp [yefanAppeared, guwanqingAppeared, yefanLocCh, yefanStatusCh]

/-- Witness for the amended C8 at a text containing exactly the six
scenario phrases. -/
theorem C8_scenario_amended_witness :
    (extract_entities sixPhraseText [] []).entities_appeared.map
        (fun e => e.id) = ["yefan", "guwanqing"] ∧
    (extract_entities sixPhraseText [] []).entities_new = [jingyaNE, room602NE] ∧
    (extract_entities sixPhraseText [] []).state_changes.map
        (fun c => c.entity_id) = ["yefan", "yefan"] ∧
    (extract_entities sixPhraseText [] []).relationships_new = [landlordRel] :=
  C8_scenario_amended sixPhraseText [] [] rfl rfl rfl rfl rfl rfl rfl rfl rfl

/-- Claim C9 (code bug): reprocessing the same chapter with identical
extraction output is not idempotent. The second run appends a
duplicate relationship edge and duplicate yefan history records to the
state store, and duplicate entity_appearances and scenes rows to the
relational index (only the chapter row is replaced by primary key). -/
theorem C9_reprocessing_duplicates_rows :
    runOnceState.relationships.length = 1 ∧
    runTwiceState.relationships.length = 2 ∧
    (findEntity runOnceState.entities_v3 "yefan").map (fun e => e.history.length)
      = some 2 ∧
    (findEntity runTwiceState.entities_v3 "yefan").map (fun e => e.history.length)
      = some 4 ∧
    (dget runOnceState.alias_index "静雅小区").map List.length = some 1 ∧
    (dget runTwiceState.alias_index "静雅小区").map List.length = some 2 ∧
    runTwiceState ≠ runOnceState ∧
    runOnceDB.entity_appearances.length = 2 ∧
    runTwiceDB.entity_appearances.length = 4 ∧
    runOnceDB.scenes.length = 4 ∧
    runTwiceDB.scenes.length = 8 ∧
    (dget runOnceDB.chapters 1).isSome = true ∧
    runTwiceDB.chapters.length = runOnceDB.chapters.length := by
  decide

end DataProcessor
